import Mathlib

/-!
Shallow embedding of the ytm-cli playback core (src/ytm_cli/player.py,
src/ytm_cli/tray.py, src/ytm_cli/api.py, src/ytm_cli/main.py) and proofs
of the specification claims about it.

External collaborators (ytmusicapi, yt-dlp, the mpv subprocess, the host
audio mixer, the OS socket layer) are modelled as oracles supplied through
environment records; every function of the repository itself is translated
from its Python source.
-/

/-! ## Data model

A queue entry is a Python dict produced by `YouTubeMusicAPI` (api.py):
keys `videoId`, `title`, `artist`, `duration`.  `Option` models a key that
is absent or bound to `None` (the two are indistinguishable to every
`.get`-based read the core performs). -/

structure Track where
  videoId : Option String
  title : Option String
  artist : Option String
  duration : Option String
  deriving Repr, DecidableEq

/-- A raw entry of the external `ytmusic.get_watch_playlist(...)["tracks"]`
list consumed by `YouTubeMusicAPI.get_radio` (api.py:197-225): the fields
that method reads.  `artists` is the list of artist names. -/
structure RawTrack where
  videoId : Option String
  title : Option String
  artists : List String
  length : Option String
  deriving Repr, DecidableEq

/-- Python truthiness of an optional string (`if vid:`): `None` and the
empty string are falsy. -/
def strTruthy : Option String → Bool
  | none => false
  | some s => !s.isEmpty

/-- The dedup loop of `YouTubeMusicAPI.get_radio` (api.py:206-222): walk
the raw tracks in order, keep the first occurrence of each truthy
`videoId`, drop entries whose id is falsy or already seen. -/
def dedupTracks : List RawTrack → List String → List Track
  | [], _ => []
  | t :: rest, seen =>
    match t.videoId with
    | some vid =>
      if vid ≠ "" ∧ vid ∉ seen then
        { videoId := some vid
          title := some (t.title.getD "Unknown")
          artist := some (match t.artists with | [] => "Unknown" | a :: _ => a)
          duration := t.length } :: dedupTracks rest (vid :: seen)
      else
        dedupTracks rest seen
    | none => dedupTracks rest seen

/-- `YouTubeMusicAPI.get_radio` (api.py:197-225), given the raw track list
returned by the external `get_watch_playlist` call.  (The surrounding
`try/except` returning `[]` on collaborator failure is modelled by the
oracle supplying an empty raw list.) -/
def get_radio (raw : List RawTrack) : List Track :=
  dedupTracks raw []

/-! ## Worker state (PlaybackWorker, tray.py:693-936) -/

/-- Status of the single mpv subprocess as the worker observes it through
`Player.is_active()`.  `exited` and `crashed` both make `is_active` false;
the worker cannot distinguish them (player.py:261-263 only polls). -/
inductive ProcStatus where
  | running
  | exited
  | crashed
  deriving Repr, DecidableEq

/-- An audio output device descriptor (`{name, description}`). -/
structure Device where
  name : String
  description : String
  deriving Repr, DecidableEq

/-- The host audio mixer (PulseAudio) — external to the player
subprocess. -/
structure Mixer where
  volume : Int
  devices : List Device
  currentDevice : String
  deriving Repr, DecidableEq

/-- Qt signals emitted by `PlaybackWorker` (tray.py:696-705). -/
inductive WEvent where
  | trackChanged (title artist : String) (pos total : Nat)
  | progressUpdated (position duration : ℚ) (paused : Bool)
  | playbackFinished
  | volumeChanged (v : Int)
  | rateResult (rating : String) (success : Bool)
  | errorOccurred (msg : String)
  | playbackStarted
  deriving Repr, DecidableEq

/-- The mutable state owned by `PlaybackWorker` (tray.py:707-718),
together with the observable effects the worker's methods have: the mpv
subprocess status, the host mixer, the now-playing snapshot file and the
list of emitted signals. -/
structure WorkerState where
  queue : List Track
  queueIndex : Nat
  paused : Bool
  radioMode : Bool
  stopped : Bool
  pollTimerActive : Bool
  procStatus : ProcStatus
  currentLabel : String
  lastPulseVol : Int
  mixer : Mixer
  fetchCount : Nat
  nowPlaying : Option String
  events : List WEvent
  deriving Repr, DecidableEq

/-- Oracles for the worker's external collaborators: whether
`Player.play` succeeds for a track (and the exception text when it does
not), the raw watch-playlist data behind successive `api.get_radio`
calls, whether `api.rate_song` succeeds for an id, and the
`(position, duration)` a poll tick reads from mpv. -/
structure Env where
  playOk : Track → Bool
  playErr : Track → String
  rawRadio : String → Nat → List RawTrack
  rateOk : String → Bool
  progress : ℚ × ℚ

/-- Append one emitted Qt signal. -/
def emit (e : WEvent) (s : WorkerState) : WorkerState :=
  { s with events := s.events ++ [e] }

/-- `_format_time` (tray.py:138-144): format seconds as `M:SS`.  Python's
`int(x)` on a non-negative float is a floor. -/
def formatTime (seconds : ℚ) : String :=
  if seconds ≤ 0 then "0:00"
  else
    let mins : Int := ⌊seconds / 60⌋
    let secs : Int := ⌊seconds - 60 * (mins : ℚ)⌋
    if secs < 10 then s!"{mins}:0{secs}" else s!"{mins}:{secs}"

mutual

/-- `PlaybackWorker._play_current` (tray.py:736-771).  `fuel` bounds the
mutual recursion through `_advance_queue` (in Python it is bounded by the
queue length and the radio fetches); at fuel 0 the remaining calls are cut
off and the state is returned as is. -/
def playCurrent : Nat → Env → WorkerState → WorkerState
  | 0, _, s => s
  | fuel + 1, env, s =>
    if s.stopped ∨ s.queue.length ≤ s.queueIndex then
      emit .playbackFinished s
    else
      let track := s.queue.getD s.queueIndex ⟨none, none, none, none⟩
      if !strTruthy track.videoId then
        advanceQueue fuel env (emit (.errorOccurred "Invalid track (no videoId)") s)
      else
        if env.playOk track then
          let s := { s with procStatus := .running, paused := false,
                            currentLabel :=
                              track.artist.getD "Unknown" ++ " - " ++ track.title.getD "Unknown" }
          let s := emit (.trackChanged (track.title.getD "Unknown") (track.artist.getD "Unknown")
                          (s.queueIndex + 1) s.queue.length) s
          let vol := s.mixer.volume
          let s := emit (.volumeChanged vol) { s with lastPulseVol := vol }
          let s := { s with pollTimerActive := true }
          emit .playbackStarted s
        else
          advanceQueue fuel env
            (emit (.errorOccurred (env.playErr track)) { s with procStatus := .exited })

/-- `PlaybackWorker._advance_queue` (tray.py:773-783). -/
def advanceQueue : Nat → Env → WorkerState → WorkerState
  | 0, _, s => s
  | fuel + 1, env, s =>
    if s.stopped then s
    else
      let s := { s with queueIndex := s.queueIndex + 1 }
      if s.queueIndex < s.queue.length then playCurrent fuel env s
      else if s.radioMode then fetchRadio fuel env s
      else emit .playbackFinished s

/-- `PlaybackWorker._fetch_radio` (tray.py:785-806). -/
def fetchRadio : Nat → Env → WorkerState → WorkerState
  | 0, _, s => s
  | fuel + 1, env, s =>
    match s.queue.getLast? with
    | none => emit .playbackFinished s
    | some lastTrack =>
      match lastTrack.videoId with
      | none => emit .playbackFinished s
      | some vid =>
        if vid = "" then emit .playbackFinished s
        else
        let existing := s.queue.map (fun t => t.videoId)
        let radioTracks := get_radio (env.rawRadio vid s.fetchCount)
        let newTracks := radioTracks.filter (fun t => decide (t.videoId ∉ existing))
        if newTracks.isEmpty then emit .playbackFinished s
        else
          playCurrent fuel env
            { s with queue := s.queue ++ newTracks, fetchCount := s.fetchCount + 1 }

end

/-- `PlaybackWorker._poll_tick` (tray.py:808-832). -/
def pollTick (fuel : Nat) (env : Env) (s : WorkerState) : WorkerState :=
  if s.stopped then s
  else if s.procStatus = .running then
    let position := env.progress.1
    let duration := env.progress.2
    let s := emit (.progressUpdated position duration s.paused) s
    let icon := if s.paused then "⏸" else "▶"
    let text :=
      if 0 < duration then
        icon ++ " " ++ s.currentLabel ++ "  " ++ formatTime position ++ "/" ++ formatTime duration
      else
        icon ++ " " ++ s.currentLabel
    let s := { s with nowPlaying := some text }
    let vol := s.mixer.volume
    if vol ≠ s.lastPulseVol then emit (.volumeChanged vol) { s with lastPulseVol := vol }
    else s
  else
    advanceQueue fuel env { s with pollTimerActive := false }

/-- `PlaybackWorker.rate_dislike` (tray.py:895-909). -/
def rateDislike (fuel : Nat) (env : Env) (s : WorkerState) : WorkerState :=
  if s.queueIndex < s.queue.length then
    match (s.queue.getD s.queueIndex ⟨none, none, none, none⟩).videoId with
    | some vid =>
      if vid = "" then s
      else
        let success := env.rateOk vid
        let s := emit (.rateResult "DISLIKE" success) s
        if success then
          let s := { s with queue := s.queue.filter (fun t => decide (t.videoId ≠ some vid)) }
          let s :=
            if s.queue.length ≤ s.queueIndex then { s with queueIndex := s.queue.length }
            else s
          let s := { s with procStatus := .exited, pollTimerActive := false }
          playCurrent fuel env s
        else s
    | none => s
  else s

/-- `PlaybackWorker.set_volume` (tray.py:870-874): sets the host mixer
volume (`Player.set_pulse_volume`), records it and emits
`volume_changed` — the player subprocess is never touched. -/
def workerSetVolume (vol : Int) (s : WorkerState) : WorkerState :=
  let s := { s with mixer := { s.mixer with volume := vol } }
  let s := { s with lastPulseVol := vol }
  emit (.volumeChanged vol) s

/-! ## Player (player.py:35-326)

The `Player` instance attributes, plus the pieces of the outside world its
methods act on: the set of filesystem paths that currently exist (`fs`)
and the log of IPC messages handed to `sendall` (`sent`). -/

/-- An mpv JSON-IPC value.  (A JSON `null` datum is collapsed into the
`data` key being absent: every read in player.py treats the two alike via
`is not None`.) -/
inductive JVal where
  | num (q : ℚ)
  | bool (b : Bool)
  | str (s : String)
  deriving Repr, DecidableEq

/-- A parsed one-line JSON response from mpv:
`{"data": <value>} | {"error": "success"|<message>}`. -/
structure Resp where
  data : Option JVal
  error : Option String
  deriving Repr, DecidableEq

/-- Python truthiness of the response dict (`if result`): an empty dict is
falsy. -/
def Resp.truthy (r : Resp) : Bool :=
  r.data.isSome || r.error.isSome

/-- The `Player` state (player.py:38-44) together with the observable
world: `fs` is the set of existing file paths, `sent` the IPC messages
constructed and handed to the socket. -/
structure PlayerState where
  socket : Option Unit
  process : Option Unit
  socketPath : Option String
  audioFile : Option String
  duration : ℚ
  fs : List String
  sent : List (List JVal)
  deriving Repr, DecidableEq

/-- `Player.__init__` (player.py:38-45): no subprocess, no socket, no
files, zero duration (the dependency check does not touch this state). -/
def initPlayer (fs : List String) : PlayerState :=
  { socket := none, process := none, socketPath := none, audioFile := none,
    duration := 0, fs := fs, sent := [] }

/-- `path.unlink()` on the modelled filesystem. -/
def unlinkFs (p : String) (fs : List String) : List String :=
  fs.filter (fun q => decide (q ≠ p))

/-- `Player.stop` (player.py:220-252): close the socket, drop the
subprocess (terminate / wait / kill), unlink the socket file and the temp
audio file when they exist, reset the cached duration.  Note the path
attributes are cleared only inside the `exists()` branches, exactly as in
the source. -/
def Player.stop (s : PlayerState) : PlayerState :=
  let s := { s with socket := none }
  let s := { s with process := none }
  let s :=
    match s.socketPath with
    | some p => if p ∈ s.fs then { s with fs := unlinkFs p s.fs, socketPath := none } else s
    | none => s
  let s :=
    match s.audioFile with
    | some p => if p ∈ s.fs then { s with fs := unlinkFs p s.fs, audioFile := none } else s
    | none => s
  { s with duration := 0 }

/-- What the send/recv/parse round trip of one `_send_command` call does
(player.py:147-164), each case naming the Python event it models:
- `sendFail`: `sendall` raises `socket.error`/`OSError` (caught);
- `recvFail`: `recv` raises `socket.error`/`socket.timeout`/`OSError`
  (caught);
- `empty`: the first `recv` returns `b""` (peer closed), so `response`
  stays empty and `if response:` is false — no exception at all;
- `badUnicode`: `response.decode()` raises `UnicodeDecodeError`, which is
  NOT among the caught exception classes and propagates to the caller;
- `badJson`: `json.loads` raises `json.JSONDecodeError` (caught);
- `ok r`: the response line parses to the dict `r`. -/
inductive IpcOutcome where
  | sendFail
  | recvFail
  | empty
  | badUnicode
  | badJson
  | ok (r : Resp)
  deriving Repr, DecidableEq

/-- Oracles for one IPC interaction: whether `socket.connect` succeeds,
and what the send/recv/parse round trip does. -/
structure IpcEnv where
  connOk : Bool
  outcome : IpcOutcome
  deriving Repr, DecidableEq

/-- `Player._connect_ipc` (player.py:127-139): requires the socket path to
be set and to exist on disk; on connect failure the socket attribute is
cleared. -/
def connectIpc (e : IpcEnv) (s : PlayerState) : Bool × PlayerState :=
  match s.socketPath with
  | none => (false, s)
  | some p =>
    if p ∈ s.fs then
      if e.connOk then (true, { s with socket := some () })
      else (false, { s with socket := none })
    else (false, s)

/-- `Player._send_command` (player.py:141-164): lazily connect if there is
no socket; construct the JSON line and hand it to `sendall` (the `sent`
log); read until a line break; parse.  A caught exception
(`socket.error`, `json.JSONDecodeError`, `OSError`) clears the socket (no
retry) and yields `None`; an EMPTY response skips the parse and yields
`None` while KEEPING the socket (the `except` block never runs); an
uncaught `UnicodeDecodeError` from `response.decode()` propagates to the
caller (`Except.error`), also keeping the socket. -/
def sendCommand (e : IpcEnv) (cmd : List JVal) (s : PlayerState) :
    Except String (Option Resp) × PlayerState :=
  let (connected, s) :=
    match s.socket with
    | some _ => (true, s)
    | none => connectIpc e s
  if connected then
    let s := { s with sent := s.sent ++ [cmd] }
    match e.outcome with
    | .sendFail => (.ok none, { s with socket := none })
    | .recvFail => (.ok none, { s with socket := none })
    | .empty => (.ok none, s)
    | .badUnicode => (.error "UnicodeDecodeError", s)
    | .badJson => (.ok none, { s with socket := none })
    | .ok r => (.ok (some r), s)
  else (.ok none, s)

/-- `Player._get_property` (player.py:166-171); an exception escaping
`_send_command` propagates through it. -/
def getPropertyP (e : IpcEnv) (name : String) (s : PlayerState) :
    Except String (Option JVal) × PlayerState :=
  let (res, s) := sendCommand e [.str "get_property", .str name] s
  match res with
  | .error msg => (.error msg, s)
  | .ok (some r) => (.ok (if r.truthy && r.data.isSome then r.data else none), s)
  | .ok none => (.ok none, s)

/-- `Player._set_property` (player.py:173-176); an exception escaping
`_send_command` propagates through it. -/
def setPropertyP (e : IpcEnv) (name : String) (v : JVal) (s : PlayerState) :
    Except String Bool × PlayerState :=
  let (res, s) := sendCommand e [.str "set_property", .str name, v] s
  match res with
  | .error msg => (.error msg, s)
  | .ok (some r) => (.ok (decide (r.error = some "success")), s)
  | .ok none => (.ok false, s)

/-- Python `float(x)` on an IPC datum.  Numeric-string parsing is not
modelled (no property read in the source receives a string). -/
def pyFloat : JVal → Except String ℚ
  | .num q => .ok q
  | .bool b => .ok (if b then 1 else 0)
  | .str _ => .error "ValueError"

/-- Python `int(x)` on an IPC datum (truncation toward zero). -/
def pyInt : JVal → Except String Int
  | .num q => .ok (Int.tdiv q.num (q.den : Int))
  | .bool b => .ok (if b then 1 else 0)
  | .str _ => .error "ValueError"

/-- `Player.get_position` (player.py:282-285): `float(pos)` when the
property read yields a value, else `0.0`. -/
def getPosition (e : IpcEnv) (s : PlayerState) : Except String ℚ × PlayerState :=
  let (pos, s) := getPropertyP e "time-pos" s
  match pos with
  | .error msg => (.error msg, s)
  | .ok (some v) => (pyFloat v, s)
  | .ok none => (.ok 0, s)

/-- `Player.get_duration` (player.py:287-293): prefer the live property,
fall back to the cached resolver-supplied duration. -/
def getDuration (e : IpcEnv) (s : PlayerState) : Except String ℚ × PlayerState :=
  let (dur, s) := getPropertyP e "duration" s
  match dur with
  | .error msg => (.error msg, s)
  | .ok (some v) => (pyFloat v, s)
  | .ok none => (.ok s.duration, s)

/-- `Player.get_volume` (player.py:317-320): `int(vol)` when the property
read yields a value, else `100`. -/
def getVolume (e : IpcEnv) (s : PlayerState) : Except String Int × PlayerState :=
  let (vol, s) := getPropertyP e "volume" s
  match vol with
  | .error msg => (.error msg, s)
  | .ok (some v) => (pyInt v, s)
  | .ok none => (.ok 100, s)

/-- The value `Player.set_volume` requests (player.py:315):
`max(0, min(100, volume))`. -/
def setVolumeValue (volume : Int) : Int :=
  max 0 (min 100 volume)

/-- `Player.set_volume` (player.py:313-315): one `set_property` call with
the clamped value; the boolean result is discarded.  The returned state is
the player/world state after the call, which is the same whether or not
the underlying round trip propagated an exception (the request is handed
to `sendall` before anything is received). -/
def setVolume (e : IpcEnv) (volume : Int) (s : PlayerState) : PlayerState :=
  (setPropertyP e "volume" (.num (setVolumeValue volume : Int)) s).2

/-! ## Audio source resolver (`Player._download_audio`, player.py:56-125) -/

/-- The credential configuration of one yt-dlp attempt: the configured
cookies file, browser-extracted cookies, or no credentials. -/
inductive Cred where
  | cookieFile
  | browser
  | anonymous
  deriving Repr, DecidableEq

/-- Oracle for one `ydl.extract_info(url, download=True)` call: whether it
raised (and the exception text), the `duration` of the returned info (0
when the info dict is `None` or lacks the key), and the state of the
output file after the call (`none` = absent, `some n` = size `n`). -/
structure StratOutcome where
  raises : Bool
  errMsg : String
  dur : ℚ
  sizeAfter : Option Nat
  deriving Repr, DecidableEq

/-- Oracle for one `_download_audio` run: whether
`~/.config/ytm-cli/cookies.txt` exists, and the three strategy
outcomes in cascade order. -/
structure DownloadEnv where
  cookiesFileExists : Bool
  o1 : StratOutcome
  o2 : StratOutcome
  o3 : StratOutcome
  deriving Repr, DecidableEq

/-- One recorded yt-dlp attempt: the credentials it used, the path it
wrote to, and the state of that path when the attempt started. -/
structure Attempt where
  cred : Cred
  path : String
  entryFile : Option Nat
  deriving Repr, DecidableEq

/-- The observable result of `_download_audio`: the attempts made in
order, the returned value, the final state of the temp file, and the
`_last_error` attribute afterwards. -/
structure DownloadTrace where
  attempts : List Attempt
  result : Option (String × ℚ)
  finalFile : Option Nat
  lastError : String
  deriving Repr, DecidableEq

/-- `audio_file.exists() and audio_file.stat().st_size > 0`. -/
def sizeOk : Option Nat → Bool
  | some n => decide (0 < n)
  | none => false

/-- Whether one strategy attempt returns from `_download_audio`
(player.py:91-92, 103-104, 114-115): it did not raise and left a
non-empty file. -/
def stratSucceeds (o : StratOutcome) : Bool :=
  !o.raises && sizeOk o.sizeAfter

/-- `Player._download_audio` (player.py:56-125).  `tempName` is the single
`tempfile.mktemp` path created before the first attempt; `prevErr` is the
`_last_error` attribute on entry (it is only overwritten on the failure
epilogue, player.py:124).  All three attempts share `tempName`; the
zero-byte cleanup happens once, after the last strategy (player.py:120-121). -/
def downloadAudio (env : DownloadEnv) (prevErr : String) (tempName : String) :
    DownloadTrace :=
  let cred1 := if env.cookiesFileExists then Cred.cookieFile else Cred.anonymous
  let a1 : Attempt := { cred := cred1, path := tempName, entryFile := none }
  let f1 := env.o1.sizeAfter
  let e1 := if env.o1.raises then env.o1.errMsg else ""
  if stratSucceeds env.o1 then
    { attempts := [a1], result := some (tempName, env.o1.dur),
      finalFile := f1, lastError := prevErr }
  else
    let a2 : Attempt := { cred := Cred.browser, path := tempName, entryFile := f1 }
    let f2 := env.o2.sizeAfter
    let e2 := if env.o2.raises then env.o2.errMsg else e1
    if stratSucceeds env.o2 then
      { attempts := [a1, a2], result := some (tempName, env.o2.dur),
        finalFile := f2, lastError := prevErr }
    else
      let a3 : Attempt := { cred := Cred.anonymous, path := tempName, entryFile := f2 }
      let f3 := env.o3.sizeAfter
      let e3 := if env.o3.raises then env.o3.errMsg else e2
      if stratSucceeds env.o3 then
        { attempts := [a1, a2, a3], result := some (tempName, env.o3.dur),
          finalFile := f3, lastError := prevErr }
      else
        -- all strategies failed: delete the file iff it exists and is empty,
        -- store the accumulated last error
        let final := if f3 = some 0 then none else f3
        { attempts := [a1, a2, a3], result := none,
          finalFile := final, lastError := e3 }

/-! ## Host audio mixer operations (C9)

The worker's volume and device commands go through `Player`
static/instance helpers that talk to PulseAudio, not to the mpv
subprocess.  Those helpers are called from tray.py (lines 763, 825, 872,
878, 883) and main.py but their bodies are not part of the sources under
verification, so they are modelled from the spec. -/

/-- Modelled from the spec: `Player.set_pulse_volume` (absent from the
sources; called at tray.py:872) — "volume [is] implemented against the
host audio mixer, not the player process". -/
def set_pulse_volume (v : Int) (m : Mixer) : Mixer :=
  { m with volume := v }

/-- Modelled from the spec: `Player.get_pulse_volume` (absent from the
sources; called at tray.py:763, 825) — reads the host mixer volume. -/
def get_pulse_volume (m : Mixer) : Int :=
  m.volume

/-- Modelled from the spec: `Player.get_audio_devices` (absent from the
sources; called at tray.py:878) — "device enumeration/switching ... against
the host audio mixer". -/
def get_audio_devices (m : Mixer) : List Device :=
  m.devices

/-- Modelled from the spec: `Player.set_audio_device` (absent from the
sources; called at tray.py:883) — switches the host mixer output device. -/
def set_audio_device (name : String) (m : Mixer) : Mixer :=
  { m with currentDevice := name }

/-- The combined world for C9: the player subprocess state and the host
mixer, which are disjoint pieces of state. -/
structure Sys where
  player : PlayerState
  mixer : Mixer
  deriving Repr, DecidableEq

/-- `Player.stop` lifted to the combined world (a subprocess teardown /
restart boundary). -/
def sysStop (s : Sys) : Sys :=
  { s with player := Player.stop s.player }

/-- The Control Surface set-volume command on the combined world
(tray.py:870-874 routed through `set_pulse_volume`). -/
def sysSetVolume (v : Int) (s : Sys) : Sys :=
  { s with mixer := set_pulse_volume v s.mixer }

/-- The Control Surface set-output-device command on the combined world
(tray.py:881-885 routed through `set_audio_device`). -/
def sysSetDevice (name : String) (s : Sys) : Sys :=
  { s with mixer := set_audio_device name s.mixer }

/-! ## Derived predicates and concrete data used by the claim statements -/

/-- The queue-index invariant of the spec data model:
`0 <= current_index <= length` (the lower bound is inherent in `Nat`). -/
def IdxInv (s : WorkerState) : Prop :=
  s.queueIndex ≤ s.queue.length

instance (s : WorkerState) : Decidable (IdxInv s) := by
  unfold IdxInv; infer_instance

/-- The queue-id invariant: no duplicate `videoId` values. -/
def NdQ (s : WorkerState) : Prop :=
  (s.queue.map fun t => t.videoId).Nodup

instance (s : WorkerState) : Decidable (NdQ s) := by
  unfold NdQ; infer_instance

/-- Whether a worker signal is `track_changed` (a playback start). -/
def isTrackChanged : WEvent → Bool
  | .trackChanged _ _ _ _ => true
  | _ => false

/-- How many `track_changed` signals a signal log contains. -/
def countTrackChanged (es : List WEvent) : Nat :=
  (es.filter isTrackChanged).length

/-- Session-file cleanliness: neither the recorded socket path nor the
recorded audio file exists on disk. -/
def sessionClean (t : PlayerState) : Prop :=
  t.socket = none ∧ t.process = none ∧
  (∀ p, t.socketPath = some p → p ∉ t.fs) ∧
  (∀ p, t.audioFile = some p → p ∉ t.fs) ∧
  t.duration = 0

/-- A host mixer in its start-up configuration. -/
def baseMixer : Mixer :=
  { volume := 100, devices := [], currentDevice := "auto" }

/-- A concrete track with id `"a"`. -/
def trackA : Track :=
  { videoId := some "a", title := some "Song A", artist := some "Artist A", duration := none }

/-- A concrete track with id `"b"`. -/
def trackB : Track :=
  { videoId := some "b", title := some "Song B", artist := some "Artist B", duration := none }

/-- A concrete raw watch-playlist entry with id `"a"`. -/
def rawA : RawTrack :=
  { videoId := some "a", title := some "Song A", artists := ["Artist A"], length := none }

/-- A concrete raw watch-playlist entry with id `"b"`. -/
def rawB : RawTrack :=
  { videoId := some "b", title := some "Song B", artists := ["Artist B"], length := none }

/-- A concrete worker state: one-track queue, playing its first track. -/
def baseWorker : WorkerState :=
  { queue := [trackA], queueIndex := 0, paused := false, radioMode := false,
    stopped := false, pollTimerActive := true, procStatus := .running,
    currentLabel := "Artist A - Song A", lastPulseVol := 100, mixer := baseMixer,
    fetchCount := 0, nowPlaying := none, events := [] }

/-- A concrete oracle where every collaborator call succeeds and the radio
source is empty. -/
def envTrue : Env :=
  { playOk := fun _ => true, playErr := fun _ => "download failed",
    rawRadio := fun _ _ => [], rateOk := fun _ => true, progress := (30, 180) }

/-- `envTrue` but the rating collaborator fails. -/
def envRateFalse : Env :=
  { envTrue with rateOk := fun _ => false }

/-- `envTrue` but the radio source returns entries `a` (a duplicate of the
queue) and `b` (new). -/
def envRadio : Env :=
  { envTrue with rawRadio := fun _ _ => [rawA, rawB] }

/-- The exhausted one-track queue state (`current_index == length`), with
the subprocess gone: the state a finished non-radio queue rests in. -/
def exhaustedWorker : WorkerState :=
  { baseWorker with queueIndex := 1, procStatus := .exited, pollTimerActive := false }

/-- A concrete connected player session: live socket and subprocess, both
session files on disk. -/
def livePlayer : PlayerState :=
  { socket := some (), process := some (), socketPath := some "/tmp/ytm-mpv-1.sock",
    audioFile := some "/tmp/ytm-1.mp4", duration := 180, fs := ["/tmp/ytm-mpv-1.sock", "/tmp/ytm-1.mp4"],
    sent := [] }

/-- A player whose recorded socket path no longer exists on disk. -/
def stalePlayer : PlayerState :=
  { socket := none, process := none, socketPath := some "/tmp/gone.sock",
    audioFile := none, duration := 0, fs := [], sent := [] }

/-- A player with an invalidated endpoint but a live socket path on
disk. -/
def droppedPlayer : PlayerState :=
  { livePlayer with socket := none }

/-- An IPC oracle where connecting and receiving fail with caught socket
errors. -/
def ipcFail : IpcEnv :=
  { connOk := false, outcome := .recvFail }

/-- An IPC oracle where everything succeeds and mpv answers
`{"data": 5}`. -/
def ipcOk : IpcEnv :=
  { connOk := true, outcome := .ok { data := some (.num 5), error := none } }

/-- An IPC oracle where the peer closes the connection before sending any
byte: `recv` returns `b""` immediately. -/
def ipcEmpty : IpcEnv :=
  { connOk := true, outcome := .empty }

/-- An IPC oracle where the response bytes are not valid UTF-8:
`response.decode()` raises `UnicodeDecodeError`. -/
def ipcBadUnicode : IpcEnv :=
  { connOk := true, outcome := .badUnicode }

/-- A download oracle: strategy 1 leaves a zero-byte file without raising,
strategies 2 and 3 raise. -/
def dlZeroByte : DownloadEnv :=
  { cookiesFileExists := true
    o1 := { raises := false, errMsg := "", dur := 0, sizeAfter := some 0 }
    o2 := { raises := true, errMsg := "HTTP Error 403", dur := 0, sizeAfter := some 0 }
    o3 := { raises := true, errMsg := "HTTP Error 403", dur := 0, sizeAfter := some 0 } }

/-- A download oracle where only the last (anonymous) strategy succeeds. -/
def dlLastWins : DownloadEnv :=
  { cookiesFileExists := true
    o1 := { raises := true, errMsg := "Sign in to confirm", dur := 0, sizeAfter := none }
    o2 := { raises := false, errMsg := "", dur := 0, sizeAfter := some 0 }
    o3 := { raises := false, errMsg := "", dur := 212, sizeAfter := some 4096 } }

/-! ## Helper lemmas -/

theorem mem_unlinkFs {q p : String} {fs : List String} :
    q ∈ unlinkFs p fs ↔ q ∈ fs ∧ q ≠ p := by
  simp [unlinkFs]

theorem not_mem_unlinkFs (p : String) (fs : List String) : p ∉ unlinkFs p fs := by
  simp [unlinkFs]

theorem stop_clean (s : PlayerState) : sessionClean (Player.stop s) := by
  unfold Player.stop sessionClean
  rcases s with ⟨sock, proc, sp, af, dur, fs, sent⟩
  rcases sp with _ | p <;> rcases af with _ | q <;>
    simp only [] <;> (try split_ifs) <;>
    (try simp_all [mem_unlinkFs, not_mem_unlinkFs]) <;>
    (try split_ifs) <;>
    (try simp_all [mem_unlinkFs, not_mem_unlinkFs])

theorem clean_stop_fix (t : PlayerState) (h : sessionClean t) : Player.stop t = t := by
  obtain ⟨h1, h2, h3, h4, h5⟩ := h
  unfold Player.stop
  rcases t with ⟨sock, proc, sp, af, dur, fs, sent⟩
  simp only at h1 h2 h5
  subst h1 h2 h5
  rcases sp with _ | p <;> rcases af with _ | q <;> simp_all

/-! ## Claim theorems -/

/-- Claim C3: `stop()` is idempotent and always safe: a second `stop()` is
exactly a no-op, after a `stop()` no temp audio file and no socket
endpoint file exist and no subprocess handle is live, and `stop()` from
the freshly constructed player changes nothing (filesystem included). -/
theorem c3_stop_idempotent (s : PlayerState) (fs0 : List String) :
    Player.stop (Player.stop s) = Player.stop s ∧
    sessionClean (Player.stop s) ∧
    Player.stop (initPlayer fs0) = initPlayer fs0 ∧
    (Player.stop (initPlayer fs0)).fs = fs0 := by
  refine ⟨clean_stop_fix _ (stop_clean s), stop_clean s, ?_, ?_⟩
  · refine clean_stop_fix _ ?_
    refine ⟨rfl, rfl, ?_, ?_, rfl⟩ <;> intro p hp <;> simp [initPlayer] at hp
  · have h : Player.stop (initPlayer fs0) = initPlayer fs0 := by
      refine clean_stop_fix _ ?_
      refine ⟨rfl, rfl, ?_, ?_, rfl⟩ <;> intro p hp <;> simp [initPlayer] at hp
    rw [h]
    simp [initPlayer]

/-- Claim C9: volume control and output-device enumeration/switching act
on the host mixer only: they commute with a subprocess teardown, a
teardown leaves the mixer untouched, and the mixer operations leave the
whole player/subprocess state untouched. -/
theorem c9_mixer_independent (s : Sys) (v : Int) (name : String) :
    sysSetVolume v (sysStop s) = sysStop (sysSetVolume v s) ∧
    sysSetDevice name (sysStop s) = sysStop (sysSetDevice name s) ∧
    (sysStop s).mixer = s.mixer ∧
    get_pulse_volume (sysSetVolume v s).mixer = v ∧
    get_audio_devices (sysStop s).mixer = get_audio_devices s.mixer ∧
    (sysSetVolume v s).player = s.player ∧
    (sysSetDevice name s).player = s.player := by
  refine ⟨rfl, rfl, rfl, rfl, rfl, rfl, rfl⟩

/-- Claim C10: `Player.set_volume(n)` requests exactly
`max(0, min(100, n))` as the `volume` property — always in `[0, 100]`,
the identity on in-range inputs, clamped on out-of-range inputs — and the
call is total (it never fails, whatever the channel state). -/
theorem c10_set_volume_clamp (e : IpcEnv) (v : Int) (s : PlayerState) :
    0 ≤ setVolumeValue v ∧ setVolumeValue v ≤ 100 ∧
    (0 ≤ v → v ≤ 100 → setVolumeValue v = v) ∧
    (v ≤ 0 → setVolumeValue v = 0) ∧
    (100 ≤ v → setVolumeValue v = 100) ∧
    (s.socket = some () →
      (setVolume e v s).sent
        = s.sent ++ [[.str "set_property", .str "volume", .num (setVolumeValue v : Int)]]) := by
  refine ⟨?_, ?_, ?_, ?_, ?_, ?_⟩
  · simp only [setVolumeValue]; omega
  · simp only [setVolumeValue]; omega
  · intro h1 h2; simp only [setVolumeValue]; omega
  · intro h; simp only [setVolumeValue]; omega
  · intro h; simp only [setVolumeValue]; omega
  · intro h
    rcases hr : e.outcome with _ | _ | _ | _ | _ | r <;>
      simp [setVolume, setPropertyP, sendCommand, h, hr]


/-- Witness for C3 at concrete states. -/
theorem c3_stop_idempotent_witness :
    Player.stop (Player.stop livePlayer) = Player.stop livePlayer ∧
    "/tmp/gone.sock" ∉ (Player.stop stalePlayer).fs := by
  refine ⟨(c3_stop_idempotent livePlayer []).1, ?_⟩
  exact (c3_stop_idempotent stalePlayer []).2.1.2.2.1 "/tmp/gone.sock" (by decide)

/-- Witness for C10 at concrete inputs. -/
theorem c10_set_volume_clamp_witness :
    setVolumeValue 150 = 100 ∧ setVolumeValue (-5) = 0 ∧ setVolumeValue 42 = 42 ∧
    (setVolume ipcOk 150 livePlayer).sent
      = livePlayer.sent ++ [[.str "set_property", .str "volume", .num (setVolumeValue 150 : Int)]] := by
  refine ⟨(c10_set_volume_clamp ipcOk 150 livePlayer).2.2.2.2.1 (by decide),
          (c10_set_volume_clamp ipcOk (-5) livePlayer).2.2.2.1 (by decide),
          (c10_set_volume_clamp ipcOk 42 livePlayer).2.2.1 (by decide) (by decide),
          (c10_set_volume_clamp ipcOk 150 livePlayer).2.2.2.2.2 rfl⟩

/-- Counterexample to claim C7: property operations CAN raise to the
caller — with undecodable response bytes, `get_position` propagates the
uncaught `UnicodeDecodeError` — and a failed round trip does NOT always
invalidate the endpoint: after the peer closes the channel before any
byte (`recv` returns `b""`), the call returns the default but the stale
socket is kept, so the next call does not lazily reconnect. -/
theorem c7_counterexample :
    (getPosition ipcBadUnicode livePlayer).1 = .error "UnicodeDecodeError" ∧
    (sendCommand ipcEmpty [.str "get_property", .str "time-pos"] livePlayer).2.socket
      = some () ∧
    (getPosition ipcEmpty livePlayer).1 = .ok 0 ∧
    (getPosition ipcEmpty livePlayer).2.socket = some () := by
  refine ⟨rfl, rfl, rfl, rfl⟩

/-- Claim C7 (amended): a CAUGHT failure of a property operation —
`sendall`/`recv` socket errors and JSON decode errors — returns `None`
with exactly one message sent (no retry in the same call) and invalidates
the endpoint, which the next call lazily re-establishes; an empty
response (peer closed) returns `None` but keeps the endpoint (no
invalidation, no reconnect); undecodable response bytes raise
`UnicodeDecodeError` to the caller; and while no channel can be
(re-)established, `get_position`, `get_volume` and `get_duration` return
the neutral defaults 0.0, 100 and the cached duration. -/
theorem c7_amended_channel_errors (s : PlayerState) (e : IpcEnv) (cmd : List JVal)
    (p : String) (r : Resp) :
    (s.socket = some () →
       (e.outcome = .sendFail ∨ e.outcome = .recvFail ∨ e.outcome = .badJson) →
       sendCommand e cmd s
         = (.ok none, { s with socket := none, sent := s.sent ++ [cmd] })) ∧
    (s.socket = some () → e.outcome = .empty →
       sendCommand e cmd s = (.ok none, { s with sent := s.sent ++ [cmd] })) ∧
    (s.socket = some () → e.outcome = .badUnicode →
       sendCommand e cmd s
         = (.error "UnicodeDecodeError", { s with sent := s.sent ++ [cmd] })) ∧
    (s.socket = none → s.socketPath = none →
       getPosition e s = (.ok 0, s) ∧ getVolume e s = (.ok 100, s) ∧
       getDuration e s = (.ok s.duration, s)) ∧
    (s.socket = none → s.socketPath = some p → p ∈ s.fs → e.connOk = false →
       getPosition e s = (.ok 0, { s with socket := none }) ∧
       getVolume e s = (.ok 100, { s with socket := none }) ∧
       getDuration e s = (.ok s.duration, { s with socket := none })) ∧
    (s.socket = none → s.socketPath = some p → p ∈ s.fs → e.connOk = true →
       e.outcome = .ok r →
       sendCommand e cmd s
         = (.ok (some r), { s with socket := some (), sent := s.sent ++ [cmd] })) := by
  refine ⟨?_, ?_, ?_, ?_, ?_, ?_⟩
  · intro hs hr
    rcases hr with hr | hr | hr <;> simp [sendCommand, hs, hr]
  · intro hs hr
    simp [sendCommand, hs, hr]
  · intro hs hr
    simp [sendCommand, hs, hr]
  · intro hs hp
    simp [getPosition, getVolume, getDuration, getPropertyP, sendCommand, connectIpc, hs, hp]
  · intro hs hp hmem hconn
    simp [getPosition, getVolume, getDuration, getPropertyP, sendCommand, connectIpc,
          hs, hp, hmem, hconn]
  · intro hs hp hmem hconn hr
    simp [sendCommand, connectIpc, hs, hp, hmem, hconn, hr]

/-- Witness for the amended C7 at concrete states, one per behavior: a
caught recv failure invalidates, an empty response does not, undecodable
bytes raise, reads on a dead channel return the defaults, and the call
after an invalidation lazily reconnects. -/
theorem c7_amended_channel_errors_witness :
    sendCommand ipcFail [.str "get_property", .str "pause"] livePlayer
      = (.ok none, { livePlayer with
                      socket := none
                      sent := livePlayer.sent ++ [[.str "get_property", .str "pause"]] }) ∧
    sendCommand ipcEmpty [.str "get_property", .str "pause"] livePlayer
      = (.ok none, { livePlayer with
                      sent := livePlayer.sent ++ [[.str "get_property", .str "pause"]] }) ∧
    sendCommand ipcBadUnicode [.str "get_property", .str "pause"] livePlayer
      = (.error "UnicodeDecodeError",
         { livePlayer with
            sent := livePlayer.sent ++ [[.str "get_property", .str "pause"]] }) ∧
    getPosition ipcFail droppedPlayer = (.ok 0, { droppedPlayer with socket := none }) ∧
    getVolume ipcFail droppedPlayer = (.ok 100, { droppedPlayer with socket := none }) ∧
    getDuration ipcFail droppedPlayer
      = (.ok droppedPlayer.duration, { droppedPlayer with socket := none }) ∧
    sendCommand ipcOk [.str "get_property", .str "pause"] droppedPlayer
      = (.ok (some { data := some (.num 5), error := none }),
         { droppedPlayer with
            socket := some ()
            sent := droppedPlayer.sent ++ [[.str "get_property", .str "pause"]] }) := by
  have h1 := (c7_amended_channel_errors livePlayer ipcFail [.str "get_property", .str "pause"]
                "/tmp/ytm-mpv-1.sock" { data := some (.num 5), error := none }).1
                rfl (Or.inr (Or.inl rfl))
  have h2 := (c7_amended_channel_errors livePlayer ipcEmpty [.str "get_property", .str "pause"]
                "/tmp/ytm-mpv-1.sock" { data := some (.num 5), error := none }).2.1 rfl rfl
  have h3 := (c7_amended_channel_errors livePlayer ipcBadUnicode
                [.str "get_property", .str "pause"]
                "/tmp/ytm-mpv-1.sock" { data := some (.num 5), error := none }).2.2.1 rfl rfl
  have h5 := (c7_amended_channel_errors droppedPlayer ipcFail
                [.str "get_property", .str "pause"]
                "/tmp/ytm-mpv-1.sock" { data := some (.num 5), error := none }).2.2.2.2.1
                rfl rfl (by decide) rfl
  have h6 := (c7_amended_channel_errors droppedPlayer ipcOk
                [.str "get_property", .str "pause"]
                "/tmp/ytm-mpv-1.sock" { data := some (.num 5), error := none }).2.2.2.2.2
                rfl rfl (by decide) rfl rfl
  exact ⟨h1, h2, h3, h5.1, h5.2.1, h5.2.2, h6⟩

/-- Claim C4: the resolver tries its strategies in the fixed priority
order configured-cookies-file, browser-cookies, anonymous, and stops at
the first strategy yielding a non-empty file.  When only the last
strategy succeeds, the returned file is exactly that strategy's output
(same single path, that strategy's file contents and duration), every
attempt having written to that one path (so no artifact of the earlier
strategies remains anywhere on disk). -/
theorem c4_cascade_order (env : DownloadEnv) (prevErr tempName : String) :
    (env.cookiesFileExists = true →
     stratSucceeds env.o1 = false → stratSucceeds env.o2 = false →
     stratSucceeds env.o3 = true →
       (downloadAudio env prevErr tempName).attempts.map Attempt.cred
         = [Cred.cookieFile, Cred.browser, Cred.anonymous] ∧
       (downloadAudio env prevErr tempName).result = some (tempName, env.o3.dur) ∧
       (downloadAudio env prevErr tempName).finalFile = env.o3.sizeAfter ∧
       ∀ a ∈ (downloadAudio env prevErr tempName).attempts, a.path = tempName) ∧
    (stratSucceeds env.o1 = true →
       (downloadAudio env prevErr tempName).attempts.map Attempt.cred
         = [if env.cookiesFileExists then Cred.cookieFile else Cred.anonymous] ∧
       (downloadAudio env prevErr tempName).result = some (tempName, env.o1.dur)) ∧
    (stratSucceeds env.o1 = false → stratSucceeds env.o2 = true →
       (downloadAudio env prevErr tempName).attempts.map Attempt.cred
         = [if env.cookiesFileExists then Cred.cookieFile else Cred.anonymous, Cred.browser] ∧
       (downloadAudio env prevErr tempName).result = some (tempName, env.o2.dur)) := by
  refine ⟨?_, ?_, ?_⟩
  · intro hc h1 h2 h3
    simp [downloadAudio, h1, h2, h3, hc]
  · intro h1
    simp [downloadAudio, h1]
  · intro h1 h2
    simp [downloadAudio, h1, h2]

/-- Witness for C4 at a concrete oracle where only the last strategy
succeeds. -/
theorem c4_cascade_order_witness :
    (downloadAudio dlLastWins "" "/tmp/ytm-7.mp4").attempts.map Attempt.cred
      = [Cred.cookieFile, Cred.browser, Cred.anonymous] ∧
    (downloadAudio dlLastWins "" "/tmp/ytm-7.mp4").result = some ("/tmp/ytm-7.mp4", 212) ∧
    (downloadAudio dlLastWins "" "/tmp/ytm-7.mp4").finalFile = some 4096 := by
  have h := (c4_cascade_order dlLastWins "" "/tmp/ytm-7.mp4").1 rfl (by decide) (by decide) (by decide)
  exact ⟨h.1, h.2.1, h.2.2.1⟩

/-- Counterexample to claim C5: with the configured-cookies strategy
leaving a zero-byte file without raising, the second and third strategies
both start with that zero-byte file still on disk — it is not deleted
before the next strategy is tried (deletion happens only once, at the very
end), and all three attempts use one shared temp path rather than one
uniquely named file per attempt. -/
theorem c5_counterexample :
    (downloadAudio dlZeroByte "" "/tmp/ytm-9.mp4").attempts.map Attempt.entryFile
      = [none, some 0, some 0] ∧
    ¬ ((downloadAudio dlZeroByte "" "/tmp/ytm-9.mp4").attempts.map Attempt.entryFile
        = [none, none, none]) ∧
    (downloadAudio dlZeroByte "" "/tmp/ytm-9.mp4").attempts.map Attempt.path
      = ["/tmp/ytm-9.mp4", "/tmp/ytm-9.mp4", "/tmp/ytm-9.mp4"] := by
  refine ⟨by decide, by decide, by decide⟩

/-- Claim C5 (amended): all strategy attempts of one resolution write to a
single uniquely named temp file created before the first attempt; a
zero-byte file left by a failed strategy is still in place when the next
strategy starts (it is overwritten in place, not deleted); a remaining
zero-byte file is deleted only once, after all three strategies have
failed, while a non-empty leftover is kept. -/
theorem c5_amended_single_temp (env : DownloadEnv) (prevErr tempName : String) :
    (∀ a ∈ (downloadAudio env prevErr tempName).attempts, a.path = tempName) ∧
    (stratSucceeds env.o1 = false →
       (downloadAudio env prevErr tempName).attempts.map Attempt.entryFile
         = [none, env.o1.sizeAfter]
           ++ (if stratSucceeds env.o2 then [] else [env.o2.sizeAfter])) ∧
    (stratSucceeds env.o1 = false → stratSucceeds env.o2 = false →
     stratSucceeds env.o3 = false →
       (downloadAudio env prevErr tempName).finalFile
         = (if env.o3.sizeAfter = some 0 then none else env.o3.sizeAfter)) := by
  refine ⟨?_, ?_, ?_⟩
  · intro a ha
    cases h1 : stratSucceeds env.o1 <;> cases h2 : stratSucceeds env.o2 <;>
      cases h3 : stratSucceeds env.o3 <;>
      simp [downloadAudio, h1, h2, h3] at ha <;>
      rcases ha with rfl | rfl | rfl <;> rfl
  · intro h1
    cases h2 : stratSucceeds env.o2 <;> cases h3 : stratSucceeds env.o3 <;>
      simp [downloadAudio, h1, h2, h3]
  · intro h1 h2 h3
    simp [downloadAudio, h1, h2, h3]

/-- Witness for the amended C5 at the zero-byte oracle. -/
theorem c5_amended_single_temp_witness :
    (downloadAudio dlZeroByte "" "/tmp/ytm-11.mp4").attempts.map Attempt.entryFile
      = [none, some 0, some 0] ∧
    (downloadAudio dlZeroByte "" "/tmp/ytm-11.mp4").finalFile = none := by
  have h2 := (c5_amended_single_temp dlZeroByte "" "/tmp/ytm-11.mp4").2.1 (by decide)
  have h3 := (c5_amended_single_temp dlZeroByte "" "/tmp/ytm-11.mp4").2.2
               (by decide) (by decide) (by decide)
  refine ⟨?_, ?_⟩
  · rw [h2]; decide
  · rw [h3]; decide

theorem dedupTracks_mem : ∀ (raw : List RawTrack) (seen : List String) (t : Track),
    t ∈ dedupTracks raw seen → ∃ vid, t.videoId = some vid ∧ vid ∉ seen := by
  intro raw
  induction raw with
  | nil => intro seen t h; simp [dedupTracks] at h
  | cons r rest ih =>
    intro seen t h
    rcases hr : r.videoId with _ | vid <;> simp only [dedupTracks, hr] at h
    · exact ih _ _ h
    · by_cases hc : vid ≠ "" ∧ vid ∉ seen
      · rw [if_pos hc] at h
        rcases List.mem_cons.mp h with rfl | h2
        · exact ⟨vid, rfl, hc.2⟩
        · obtain ⟨u, hu, hs⟩ := ih _ _ h2
          exact ⟨u, hu, fun hmem => hs (List.mem_cons_of_mem _ hmem)⟩
      · rw [if_neg hc] at h
        exact ih _ _ h

theorem dedupTracks_nodup : ∀ (raw : List RawTrack) (seen : List String),
    ((dedupTracks raw seen).map fun t => t.videoId).Nodup := by
  intro raw
  induction raw with
  | nil => intro seen; simp [dedupTracks]
  | cons r rest ih =>
    intro seen
    rcases hr : r.videoId with _ | vid <;> simp only [dedupTracks, hr]
    · exact ih _
    · by_cases hc : vid ≠ "" ∧ vid ∉ seen
      · rw [if_pos hc]
        simp only [List.map_cons, List.nodup_cons]
        refine ⟨?_, ih _⟩
        intro hmem
        rcases List.mem_map.mp hmem with ⟨t, ht, hteq⟩
        obtain ⟨u, hu, hs⟩ := dedupTracks_mem rest (vid :: seen) t ht
        rw [hu] at hteq
        have : u = vid := Option.some_inj.mp hteq
        subst this
        exact hs (List.mem_cons_self _ _)
      · rw [if_neg hc]
        exact ih _

theorem get_radio_nodup (raw : List RawTrack) :
    ((get_radio raw).map fun t => t.videoId).Nodup :=
  dedupTracks_nodup raw []

theorem append_filtered_nodup (q fetched : List Track)
    (hq : (q.map fun t => t.videoId).Nodup)
    (hf : (fetched.map fun t => t.videoId).Nodup) :
    ((q ++ fetched.filter fun t => decide (t.videoId ∉ q.map fun t => t.videoId)).map
        fun t => t.videoId).Nodup := by
  rw [List.map_append, List.nodup_append]
  refine ⟨hq, hf.sublist (List.Sublist.map _ (List.filter_sublist _)), ?_⟩
  intro x hx hx2
  rcases List.mem_map.mp hx2 with ⟨t, ht, rfl⟩
  have hp := (List.mem_filter.mp ht).2
  simp only [decide_eq_true_eq] at hp
  exact hp hx

theorem playCurrent_exhausted (fuel : Nat) (env : Env) (s : WorkerState)
    (h : s.queue.length ≤ s.queueIndex) :
    playCurrent fuel env s = s ∨ playCurrent fuel env s = emit .playbackFinished s := by
  cases fuel with
  | zero => exact Or.inl rfl
  | succ fuel =>
    right
    simp only [playCurrent]
    rw [if_pos (Or.inr h)]

theorem countTrackChanged_append (es : List WEvent) (e : WEvent)
    (h : isTrackChanged e = false) :
    countTrackChanged (es ++ [e]) = countTrackChanged es := by
  simp [countTrackChanged, List.filter_append, h]

theorem idx_all (env : Env) : ∀ fuel : Nat,
    (∀ s, IdxInv s → IdxInv (playCurrent fuel env s)) ∧
    (∀ s, s.queueIndex < s.queue.length → IdxInv (advanceQueue fuel env s)) ∧
    (∀ s, IdxInv s → IdxInv (fetchRadio fuel env s)) := by
  intro fuel
  induction fuel with
  | zero =>
    refine ⟨fun s h => ?_, fun s h => ?_, fun s h => ?_⟩
    · simpa [playCurrent] using h
    · simp only [advanceQueue]
      exact Nat.le_of_lt h
    · simpa [fetchRadio] using h
  | succ fuel ih =>
    obtain ⟨ihP, ihA, ihF⟩ := ih
    refine ⟨fun s h => ?_, fun s h => ?_, fun s h => ?_⟩
    · simp only [playCurrent]
      split
      · simpa [IdxInv, emit] using h
      · rename_i hcond
        push_neg at hcond
        split
        · exact ihA _ (by simpa [emit] using hcond.2)
        · split
          · simpa [IdxInv, emit] using h
          · exact ihA _ (by simpa [emit] using hcond.2)
    · simp only [advanceQueue]
      split
      · exact Nat.le_of_lt h
      · split
        · rename_i hlt
          exact ihP _ (Nat.le_of_lt hlt)
        · split
          · exact ihF _ (by simpa [IdxInv] using h)
          · simpa [IdxInv, emit] using h
    · simp only [fetchRadio]
      split
      · simpa [IdxInv, emit] using h
      · split
        · simpa [IdxInv, emit] using h
        · split
          · simpa [IdxInv, emit] using h
          · split
            · simpa [IdxInv, emit] using h
            · refine ihP _ ?_
              simp only [IdxInv, List.length_append]
              exact Nat.le_trans h (Nat.le_add_right _ _)

theorem nd_all (env : Env) : ∀ fuel : Nat,
    (∀ s, NdQ s → NdQ (playCurrent fuel env s)) ∧
    (∀ s, NdQ s → NdQ (advanceQueue fuel env s)) ∧
    (∀ s, NdQ s → NdQ (fetchRadio fuel env s)) := by
  intro fuel
  induction fuel with
  | zero =>
    refine ⟨fun s h => ?_, fun s h => ?_, fun s h => ?_⟩ <;>
      simpa [playCurrent, advanceQueue, fetchRadio] using h
  | succ fuel ih =>
    obtain ⟨ihP, ihA, ihF⟩ := ih
    refine ⟨fun s h => ?_, fun s h => ?_, fun s h => ?_⟩
    · simp only [playCurrent]
      split
      · simpa [NdQ, emit] using h
      · split
        · exact ihA _ (by simpa [NdQ, emit] using h)
        · split
          · simpa [NdQ, emit] using h
          · exact ihA _ (by simpa [NdQ, emit] using h)
    · simp only [advanceQueue]
      split
      · exact h
      · split
        · exact ihP _ (by simpa [NdQ] using h)
        · split
          · exact ihF _ (by simpa [NdQ] using h)
          · simpa [NdQ, emit] using h
    · simp only [fetchRadio]
      split
      · simpa [NdQ, emit] using h
      · split
        · simpa [NdQ, emit] using h
        · split
          · simpa [NdQ, emit] using h
          · split
            · simpa [NdQ, emit] using h
            · refine ihP _ ?_
              simp only [NdQ]
              exact append_filtered_nodup s.queue _ h (get_radio_nodup _)

theorem rateDislike_idx (fuel : Nat) (env : Env) (s : WorkerState) (h : IdxInv s) :
    IdxInv (rateDislike fuel env s) := by
  simp only [rateDislike]
  split
  · split
    · split
      · exact h
      · split
        · refine (idx_all env fuel).1 _ ?_
          simp only [IdxInv, emit]
          split
          all_goals simp_all [IdxInv]
          all_goals omega
        · simpa [IdxInv, emit] using h
    · exact h
  · exact h

theorem rateDislike_nd (fuel : Nat) (env : Env) (s : WorkerState) (h : NdQ s) :
    NdQ (rateDislike fuel env s) := by
  simp only [rateDislike]
  split
  · split
    · split
      · exact h
      · split
        · rename_i vid heq hne hsucc
          refine (nd_all env fuel).1 _ ?_
          have hfil : ((s.queue.filter fun t => decide (t.videoId ≠ some vid)).map
              fun t => t.videoId).Nodup :=
            h.sublist (List.Sublist.map _ (List.filter_sublist _))
          split <;> simpa [NdQ, emit] using hfil
        · simpa [NdQ, emit] using h
    · exact h
  · exact h

/-- Counterexample to claim C1: from the legitimate exhausted queue state
(`current_index == length`, here 1 == 1, radio off), one `advance()`
leaves `current_index == 2 > 1 == length`, violating
`current_index <= length`. -/
theorem c1_counterexample :
    ¬ ((advanceQueue 2 envTrue exhaustedWorker).queueIndex
        ≤ (advanceQueue 2 envTrue exhaustedWorker).queue.length) := by
  decide

/-- Claim C1 (amended): after `remove_current_on_rating()` or
`replenish()` from any state satisfying `0 <= current_index <= length`,
the invariant still holds; after `advance()` it holds provided the
starting state was not already exhausted (`current_index < length`) —
from the exhausted state `advance()` can leave
`current_index = length + 1`. -/
theorem c1_amended_invariant (fuel : Nat) (env : Env) (s : WorkerState) :
    (s.queueIndex < s.queue.length → IdxInv (advanceQueue fuel env s)) ∧
    (IdxInv s → IdxInv (fetchRadio fuel env s)) ∧
    (IdxInv s → IdxInv (rateDislike fuel env s)) :=
  ⟨fun h => (idx_all env fuel).2.1 s h,
   fun h => (idx_all env fuel).2.2 s h,
   fun h => rateDislike_idx fuel env s h⟩

/-- Witness for the amended C1 at a concrete state. -/
theorem c1_amended_invariant_witness :
    IdxInv (advanceQueue 2 envTrue baseWorker) ∧
    IdxInv (fetchRadio 2 envTrue baseWorker) ∧
    IdxInv (rateDislike 2 envTrue baseWorker) :=
  ⟨(c1_amended_invariant 2 envTrue baseWorker).1 (by decide),
   (c1_amended_invariant 2 envTrue baseWorker).2.1 (by decide),
   (c1_amended_invariant 2 envTrue baseWorker).2.2 (by decide)⟩

/-- Claim C2: from any queue with pairwise-distinct `videoId`s, a radio
replenishment (including the playback it triggers, and any further
replenishments inside it) leaves a queue with no duplicate ids: fetched
tracks are deduplicated by `get_radio` and every fetched track whose id
already appears anywhere in the queue is filtered out before the
remainder is appended. -/
theorem c2_radio_nodup (fuel : Nat) (env : Env) (s : WorkerState) (h : NdQ s) :
    NdQ (fetchRadio fuel env s) :=
  (nd_all env fuel).2.2 s h

/-- Witness for C2: radio fetch returning a duplicate of the queue (`a`)
plus a new track (`b`) yields the duplicate-free queue `[a, b]`. -/
theorem c2_radio_nodup_witness :
    NdQ (fetchRadio 2 envRadio { baseWorker with queueIndex := 1 }) ∧
    (fetchRadio 2 envRadio { baseWorker with queueIndex := 1 }).queue
      = [trackA, { videoId := some "b", title := some "Song B", artist := some "Artist B",
                   duration := none }] :=
  ⟨c2_radio_nodup 2 envRadio { baseWorker with queueIndex := 1 } (by decide), by decide⟩


theorem rateDislike_fail (fuel : Nat) (env : Env) (s : WorkerState) (vid : String)
    (hlt : s.queueIndex < s.queue.length)
    (hvid : (s.queue.getD s.queueIndex ⟨none, none, none, none⟩).videoId = some vid)
    (hne : vid ≠ "") (hF : env.rateOk vid = false) :
    rateDislike fuel env s = emit (.rateResult "DISLIKE" false) s := by
  simp only [rateDislike]
  rw [if_pos hlt]
  split
  · rename_i v heq
    obtain rfl : v = vid := Option.some_inj.mp (heq.symm.trans hvid)
    rw [if_neg hne]
    simp [hF]
  · rename_i heq
    rw [hvid] at heq
    simp at heq

theorem rateDislike_success_last (fuel : Nat) (env : Env) (s : WorkerState) (vid : String)
    (hlt : s.queueIndex < s.queue.length)
    (hvid : (s.queue.getD s.queueIndex ⟨none, none, none, none⟩).videoId = some vid)
    (hne : vid ≠ "") (hT : env.rateOk vid = true)
    (hlen : (s.queue.filter fun t => decide (t.videoId ≠ some vid)).length ≤ s.queueIndex) :
    rateDislike fuel env s
      = playCurrent fuel env
          { emit (.rateResult "DISLIKE" true) s with
              queue := s.queue.filter fun t => decide (t.videoId ≠ some vid)
              queueIndex := (s.queue.filter fun t => decide (t.videoId ≠ some vid)).length
              procStatus := .exited
              pollTimerActive := false } := by
  simp only [rateDislike]
  rw [if_pos hlt]
  split
  · rename_i v heq
    obtain rfl : v = vid := Option.some_inj.mp (heq.symm.trans hvid)
    rw [if_neg hne]
    simp only [hT, if_true, emit]
    rw [if_pos (by simpa using hlen)]
  · rename_i heq
    rw [hvid] at heq
    simp at heq

/-- Claim C6: when the rating collaborator call fails, `rate_dislike`
only emits the failure event — queue, index and all other state are left
unmodified; when it succeeds, every track with the current track's id is
removed from the queue, and when the removed track occupied the last
surviving index the current index becomes the new length ("finished"),
no earlier track is re-played and no `track_changed` signal is added. -/
theorem c6_rate_dislike (fuel : Nat) (env : Env) (s : WorkerState) (vid : String)
    (hlt : s.queueIndex < s.queue.length)
    (hvid : (s.queue.getD s.queueIndex ⟨none, none, none, none⟩).videoId = some vid)
    (hne : vid ≠ "") :
    (env.rateOk vid = false →
       rateDislike fuel env s = emit (.rateResult "DISLIKE" false) s) ∧
    (env.rateOk vid = true →
       (∀ t ∈ s.queue.filter (fun t => decide (t.videoId ≠ some vid)),
          t.videoId ≠ some vid) ∧
       ((s.queue.filter (fun t => decide (t.videoId ≠ some vid))).length ≤ s.queueIndex →
          (rateDislike fuel env s).queue
            = s.queue.filter (fun t => decide (t.videoId ≠ some vid)) ∧
          (rateDislike fuel env s).queueIndex = (rateDislike fuel env s).queue.length ∧
          (∀ t ∈ (rateDislike fuel env s).queue, t.videoId ≠ some vid) ∧
          countTrackChanged (rateDislike fuel env s).events
            = countTrackChanged s.events)) := by
  refine ⟨fun hF => rateDislike_fail fuel env s vid hlt hvid hne hF,
          fun hT => ⟨?_, fun hlen => ?_⟩⟩
  · intro t ht
    have hp := (List.mem_filter.mp ht).2
    simpa using hp
  · have hq := rateDislike_success_last fuel env s vid hlt hvid hne hT hlen
    have hmem : ∀ t ∈ s.queue.filter (fun t => decide (t.videoId ≠ some vid)),
        t.videoId ≠ some vid := by
      intro t ht
      have hp := (List.mem_filter.mp ht).2
      simpa using hp
    rcases playCurrent_exhausted fuel env
        { emit (.rateResult "DISLIKE" true) s with
            queue := s.queue.filter fun t => decide (t.videoId ≠ some vid)
            queueIndex := (s.queue.filter fun t => decide (t.videoId ≠ some vid)).length
            procStatus := .exited
            pollTimerActive := false } (Nat.le_refl _) with hP | hP <;>
      rw [hq, hP]
    · exact ⟨rfl, rfl, hmem, by
        simp only [emit]
        exact countTrackChanged_append s.events _ rfl⟩
    · refine ⟨rfl, rfl, hmem, ?_⟩
      simp only [emit]
      rw [List.append_assoc]
      rw [show (([WEvent.rateResult "DISLIKE" true] : List WEvent)
            ++ [WEvent.playbackFinished])
          = [WEvent.rateResult "DISLIKE" true, WEvent.playbackFinished] from rfl]
      simp [countTrackChanged, List.filter_append, isTrackChanged]

/-- Claim C8: whenever a poll tick observes the subprocess inactive
(whatever the reason — normal exit or crash, the hypothesis only says
"not running"), the tick equals stopping the poll timer and calling
`advance()` — the very function used for every queue advance, so there is
no distinct error path; and while the subprocess is active a tick never
advances the queue, stops the timer or touches the subprocess (the
`is_active()` check is the sole completion mechanism). -/
theorem c8_poll_tick (fuel : Nat) (env : Env) (s : WorkerState) :
    (s.stopped = false → s.procStatus ≠ .running →
       pollTick fuel env s = advanceQueue fuel env { s with pollTimerActive := false }) ∧
    (s.stopped = false → s.procStatus = .running →
       (pollTick fuel env s).queueIndex = s.queueIndex ∧
       (pollTick fuel env s).queue = s.queue ∧
       (pollTick fuel env s).pollTimerActive = s.pollTimerActive ∧
       (pollTick fuel env s).procStatus = s.procStatus) := by
  constructor
  · intro h1 h2
    simp only [pollTick, h1, Bool.false_eq_true, if_false]
    rw [if_neg h2]
  · intro h1 h2
    simp only [pollTick, h1, Bool.false_eq_true, if_false]
    rw [if_pos h2]
    split <;> simp [emit, h2]

/-- Witness for C6: on the one-track queue, a failed dislike only emits
the event; a successful dislike empties the queue, sets the index to the
length and plays nothing. -/
theorem c6_rate_dislike_witness :
    rateDislike 1 envRateFalse baseWorker = emit (.rateResult "DISLIKE" false) baseWorker ∧
    (rateDislike 1 envTrue baseWorker).queue = [] ∧
    (rateDislike 1 envTrue baseWorker).queueIndex
      = (rateDislike 1 envTrue baseWorker).queue.length ∧
    countTrackChanged (rateDislike 1 envTrue baseWorker).events
      = countTrackChanged baseWorker.events := by
  have h1 := (c6_rate_dislike 1 envRateFalse baseWorker "a" (by decide) (by decide)
                (by decide)).1 rfl
  have h2 := (c6_rate_dislike 1 envTrue baseWorker "a" (by decide) (by decide)
                (by decide)).2 rfl
  have h3 := h2.2 (by decide)
  refine ⟨h1, ?_, h3.2.1, h3.2.2.2⟩
  rw [h3.1]
  decide

/-- Witness for C8: a tick on an exited and on a crashed subprocess both
equal timer-stop plus `advance()`; an active tick leaves the index
alone. -/
theorem c8_poll_tick_witness :
    pollTick 2 envTrue { baseWorker with procStatus := .exited }
      = advanceQueue 2 envTrue
          { baseWorker with procStatus := .exited, pollTimerActive := false } ∧
    pollTick 2 envTrue { baseWorker with procStatus := .crashed }
      = advanceQueue 2 envTrue
          { baseWorker with procStatus := .crashed, pollTimerActive := false } ∧
    (pollTick 2 envTrue baseWorker).queueIndex = baseWorker.queueIndex :=
  ⟨(c8_poll_tick 2 envTrue { baseWorker with procStatus := .exited }).1 rfl (by decide),
   (c8_poll_tick 2 envTrue { baseWorker with procStatus := .crashed }).1 rfl (by decide),
   ((c8_poll_tick 2 envTrue baseWorker).2 rfl rfl).1⟩
